import Mathlib

/-!
Verification development for the codex agent core (Rust sources under
codex-rs).  We shallowly embed the safety evaluator (core/src/safety.rs),
the sandbox-policy model (core/src/protocol.rs), the model-client SSE
parser and retry loop (core/src/client.rs) and the login-restriction
enforcement (core/src/auth.rs), and prove the specified properties.
-/

namespace Codex

/-! ## Paths

Rust
paths (std::path) modelled as component lists, Unix flavour: a path is
absolute iff its first component is the root directory.  This mirrors the
component view used by safety.rs (components, push, pop, starts_with). -/

/-- One std::path::Component (Unix: no drive-letter components). -/
inductive Component where
  | rootDir : Component
  | curDir : Component
  | parentDir : Component
  | normal : String → Component
deriving DecidableEq, Repr

/-- A Rust PathBuf as its component list. -/
abbrev RustPath := List Component

/-- Path::is_absolute on Unix: the path has a root. -/
def isAbsolute (p : RustPath) : Bool :=
  match p with
  | Component.rootDir :: _ => true
  | _ => false

/-- PathBuf::push of one component: pushing an absolute component replaces
the whole path, otherwise it is appended. -/
def pushComp (out : List Component) (c : Component) : List Component :=
  match c with
  | Component.rootDir => [Component.rootDir]
  | _ => out ++ [c]

/-- PathBuf::pop: truncate to the parent; the root alone and the empty path
are left unchanged. -/
def popComp (out : List Component) : List Component :=
  match out with
  | [] => []
  | [Component.rootDir] => [Component.rootDir]
  | _ => out.dropLast

/-- Path::join: joining an absolute path replaces the base. -/
def pathJoin (base p : RustPath) : RustPath :=
  if isAbsolute p then p else base ++ p

/-- Component-wise path-prefix test (Path::starts_with). -/
def compPrefixOf : List Component → List Component → Bool
  | [], _ => true
  | _ :: _, [] => false
  | a :: ra, b :: rb => decide (a = b) && compPrefixOf ra rb

/-- Path::starts_with root. -/
def pathStartsWith (p root : RustPath) : Bool :=
  compPrefixOf root p

/-! ## Safety evaluator (core/src/safety.rs) -/

/-- Compile-target platform, standing in for the cfg!(target_os) tests. -/
inductive Platform where
  | macos : Platform
  | linux : Platform
  | other : Platform
deriving DecidableEq, Repr

/-- exec::SandboxType as consumed by safety.rs. -/
inductive SandboxType where
  | none : SandboxType
  | macosSeatbelt : SandboxType
  | linuxSeccomp : SandboxType
deriving DecidableEq, Repr

/-- Modelled from the spec: the AskForApproval revision that safety.rs
matches on (the protocol.rs snapshot in src is a different revision);
variants UnlessTrusted, OnFailure, Never. -/
inductive AskForApproval where
  | unlessTrusted : AskForApproval
  | onFailure : AskForApproval
  | never : AskForApproval
deriving DecidableEq, Repr

/-- Modelled from the spec: the enum SandboxPolicy revision that safety.rs
matches on: DangerFullAccess, ReadOnly, WorkspaceWrite with configured
writable roots and a network flag. -/
inductive SandboxPolicy where
  | dangerFullAccess : SandboxPolicy
  | readOnly : SandboxPolicy
  | workspaceWrite : List RustPath → Bool → SandboxPolicy
deriving DecidableEq, Repr

/-- safety.rs SafetyCheck. -/
inductive SafetyCheck where
  | autoApprove : SandboxType → SafetyCheck
  | askUser : SafetyCheck
  | reject : String → SafetyCheck
deriving DecidableEq, Repr

/-- safety.rs get_platform_sandbox, with the cfg! tests made explicit. -/
def get_platform_sandbox (platform : Platform) : Option SandboxType :=
  match platform with
  | Platform.macos => Option.some SandboxType.macosSeatbelt
  | Platform.linux => Option.some SandboxType.linuxSeccomp
  | Platform.other => Option.none

/-- safety.rs assess_command_safety.  The built-in safe list lives in
core/src/is_safe_command.rs, which is outside this snapshot, so the
predicate is passed in as a parameter; the claims hold for every choice. -/
def assess_command_safety (is_known_safe_command : List String → Bool)
    (command : List String) (approval_policy : AskForApproval)
    (sandbox_policy : SandboxPolicy) (approved : List (List String))
    (platform : Platform) : SafetyCheck :=
  if is_known_safe_command command || approved.contains command then
    SafetyCheck.autoApprove SandboxType.none
  else
    match approval_policy, sandbox_policy with
    | AskForApproval.unlessTrusted, _ => SafetyCheck.askUser
    | AskForApproval.onFailure, SandboxPolicy.dangerFullAccess
    | AskForApproval.never, SandboxPolicy.dangerFullAccess =>
        SafetyCheck.autoApprove SandboxType.none
    | _, _ =>
        match get_platform_sandbox platform with
        | Option.some sandbox_type => SafetyCheck.autoApprove sandbox_type
        | Option.none =>
            if approval_policy = AskForApproval.onFailure then
              SafetyCheck.askUser
            else
              SafetyCheck.reject
                "auto-rejected because command is not on trusted list"

/-- codex_apply_patch::ApplyPatchFileChange, modelled from its use in
safety.rs (the apply-patch crate is outside this snapshot): only the
move_path field of Update is consulted. -/
inductive ApplyPatchFileChange where
  | add : String → ApplyPatchFileChange
  | delete : ApplyPatchFileChange
  | update : Option RustPath → ApplyPatchFileChange
deriving DecidableEq, Repr

/-- codex_apply_patch::ApplyPatchAction, modelled from its use in
safety.rs: a map from affected path to file change. -/
structure ApplyPatchAction where
  changes : List (RustPath × ApplyPatchFileChange)
deriving DecidableEq, Repr

/-- ApplyPatchAction::is_empty. -/
def ApplyPatchAction.is_empty (a : ApplyPatchAction) : Bool :=
  a.changes.isEmpty

/-- The path normalization local to
is_write_patch_constrained_to_writable_paths: drop CurDir, resolve
ParentDir by popping, push everything else; no filesystem access. -/
def normalize (path : RustPath) : Option RustPath :=
  Option.some (path.foldl
    (fun out comp =>
      match comp with
      | Component.parentDir => popComp out
      | Component.curDir => out
      | other => pushComp out other)
    [])

/-- The is_path_writable closure of
is_write_patch_constrained_to_writable_paths. -/
def is_path_writable (writable_roots : List RustPath) (cwd : RustPath)
    (p : RustPath) : Bool :=
  let a := if isAbsolute p then p else pathJoin cwd p
  match normalize a with
  | Option.none => false
  | Option.some a =>
      writable_roots.any fun root =>
        let root_abs :=
          if isAbsolute root then root
          else (normalize (pathJoin cwd root)).getD (pathJoin cwd root)
        pathStartsWith a root_abs

/-- safety.rs is_write_patch_constrained_to_writable_paths. -/
def is_write_patch_constrained_to_writable_paths (action : ApplyPatchAction)
    (writable_roots : List RustPath) (cwd : RustPath) : Bool :=
  if writable_roots.isEmpty then false
  else
    action.changes.all fun pc =>
      match pc.2 with
      | ApplyPatchFileChange.add _ => is_path_writable writable_roots cwd pc.1
      | ApplyPatchFileChange.delete => is_path_writable writable_roots cwd pc.1
      | ApplyPatchFileChange.update move_path =>
          is_path_writable writable_roots cwd pc.1 &&
            match move_path with
            | Option.some dest => is_path_writable writable_roots cwd dest
            | Option.none => true

/-- safety.rs assess_patch_safety. -/
def assess_patch_safety (platform : Platform) (action : ApplyPatchAction)
    (policy : AskForApproval) (writable_roots : List RustPath)
    (cwd : RustPath) : SafetyCheck :=
  if action.is_empty then SafetyCheck.reject "empty patch"
  else
    match policy with
    | AskForApproval.unlessTrusted => SafetyCheck.askUser
    | _ =>
        if is_write_patch_constrained_to_writable_paths action writable_roots cwd then
          SafetyCheck.autoApprove SandboxType.none
        else if policy = AskForApproval.onFailure then
          match get_platform_sandbox platform with
          | Option.some sandbox_type => SafetyCheck.autoApprove sandbox_type
          | Option.none => SafetyCheck.askUser
        else if policy = AskForApproval.never then
          SafetyCheck.reject
            "writing outside of the project; rejected by user approval settings"
        else SafetyCheck.askUser

/-! ## Sandbox policy (core/src/protocol.rs)

In this snapshot of protocol.rs, SandboxPolicy is a permission set, not an
enum: a list of SandboxPermission values. -/

namespace Proto

/-- protocol.rs SandboxPermission. -/
inductive SandboxPermission where
  | diskFullReadAccess : SandboxPermission
  | diskWritePlatformUserTempFolder : SandboxPermission
  | diskWritePlatformGlobalTempFolder : SandboxPermission
  | diskWriteCwd : SandboxPermission
  | diskWriteFolder : RustPath → SandboxPermission
  | diskFullWriteAccess : SandboxPermission
  | networkFullAccess : SandboxPermission
deriving DecidableEq, Repr

/-- protocol.rs SandboxPolicy: a permission list. -/
structure SandboxPolicy where
  permissions : List SandboxPermission
deriving DecidableEq, Repr

/-- SandboxPolicy::new_read_only_policy. -/
def SandboxPolicy.new_read_only_policy : SandboxPolicy :=
  { permissions := [SandboxPermission.diskFullReadAccess] }

/-- SandboxPolicy::new_read_only_policy_with_writable_roots. -/
def SandboxPolicy.new_read_only_policy_with_writable_roots
    (writable_roots : List RustPath) : SandboxPolicy :=
  { permissions :=
      SandboxPolicy.new_read_only_policy.permissions ++
        writable_roots.map SandboxPermission.diskWriteFolder }

/-- SandboxPolicy::new_full_auto_policy. -/
def SandboxPolicy.new_full_auto_policy : SandboxPolicy :=
  { permissions :=
      [SandboxPermission.diskFullReadAccess,
       SandboxPermission.diskWritePlatformUserTempFolder,
       SandboxPermission.diskWriteCwd] }

/-- SandboxPolicy::has_full_disk_read_access. -/
def SandboxPolicy.has_full_disk_read_access (p : SandboxPolicy) : Bool :=
  p.permissions.any fun perm =>
    match perm with
    | SandboxPermission.diskFullReadAccess => true
    | _ => false

/-- SandboxPolicy::has_full_disk_write_access. -/
def SandboxPolicy.has_full_disk_write_access (p : SandboxPolicy) : Bool :=
  p.permissions.any fun perm =>
    match perm with
    | SandboxPermission.diskFullWriteAccess => true
    | _ => false

/-- SandboxPolicy::has_full_network_access. -/
def SandboxPolicy.has_full_network_access (p : SandboxPolicy) : Bool :=
  p.permissions.any fun perm =>
    match perm with
    | SandboxPermission.networkFullAccess => true
    | _ => false

/-- The ambient facts get_writable_roots_with_cwd consults: the cfg!
platform tests, the TMPDIR environment variable and filesystem
canonicalization (canonicalize none models an Err). -/
structure SysEnv where
  is_macos : Bool
  is_unix : Bool
  tmpdir : Option RustPath
  canonicalize : RustPath → Option RustPath

/-- The entries one permission contributes to the writable-roots vector in
SandboxPolicy::get_writable_roots_with_cwd. -/
def permRoots (env : SysEnv) (cwd : RustPath) :
    SandboxPermission → List RustPath
  | SandboxPermission.diskWritePlatformUserTempFolder =>
      if env.is_macos then
        match env.tmpdir with
        | Option.some tmpdir_path =>
            if isAbsolute tmpdir_path then
              tmpdir_path ::
                (match env.canonicalize tmpdir_path with
                 | Option.some canonicalized =>
                     if canonicalized ≠ tmpdir_path then [canonicalized] else []
                 | Option.none => [])
            else []
        | Option.none => []
      else []
  | SandboxPermission.diskWritePlatformGlobalTempFolder =>
      if env.is_unix then [[Component.rootDir, Component.normal "tmp"]] else []
  | SandboxPermission.diskWriteCwd => [cwd]
  | SandboxPermission.diskWriteFolder folder => [folder]
  | SandboxPermission.diskFullReadAccess => []
  | SandboxPermission.networkFullAccess => []
  | SandboxPermission.diskFullWriteAccess => []

/-- The permission loop of SandboxPolicy::get_writable_roots_with_cwd. -/
def writableRootsGo (env : SysEnv) (cwd : RustPath) :
    List SandboxPermission → List RustPath
  | [] => []
  | perm :: rest => permRoots env cwd perm ++ writableRootsGo env cwd rest

/-- SandboxPolicy::get_writable_roots_with_cwd. -/
def SandboxPolicy.get_writable_roots_with_cwd (p : SandboxPolicy)
    (env : SysEnv) (cwd : RustPath) : List RustPath :=
  writableRootsGo env cwd p.permissions

end Proto

/-! ## Model client (core/src/client.rs) -/

namespace Client

/-- protocol TokenUsage, with the field names used by the From conversion
in client.rs (the TokenUsage declaration itself is in a protocol.rs
revision outside this snapshot). -/
structure TokenUsage where
  input_tokens : Nat
  cached_input_tokens : Option Nat
  output_tokens : Nat
  reasoning_output_tokens : Option Nat
  total_tokens : Nat
deriving DecidableEq, Repr

/-- client.rs ResponseCompletedInputTokensDetails. -/
structure ResponseCompletedInputTokensDetails where
  cached_tokens : Nat
deriving DecidableEq, Repr

/-- client.rs ResponseCompletedOutputTokensDetails. -/
structure ResponseCompletedOutputTokensDetails where
  reasoning_tokens : Nat
deriving DecidableEq, Repr

/-- client.rs ResponseCompletedUsage. -/
structure ResponseCompletedUsage where
  input_tokens : Nat
  input_tokens_details : Option ResponseCompletedInputTokensDetails
  output_tokens : Nat
  output_tokens_details : Option ResponseCompletedOutputTokensDetails
  total_tokens : Nat
deriving DecidableEq, Repr

/-- The From ResponseCompletedUsage for TokenUsage impl in client.rs. -/
def ResponseCompletedUsage.toTokenUsage (val : ResponseCompletedUsage) :
    TokenUsage :=
  { input_tokens := val.input_tokens
    cached_input_tokens := val.input_tokens_details.map fun d => d.cached_tokens
    output_tokens := val.output_tokens
    reasoning_output_tokens :=
      val.output_tokens_details.map fun d => d.reasoning_tokens
    total_tokens := val.total_tokens }

/-- client.rs ResponseCompleted: the envelope captured from a
response.completed SSE event. -/
structure ResponseCompleted where
  id : String
  usage : Option ResponseCompletedUsage
deriving DecidableEq, Repr

/-- models::ResponseItem, opaque here: the SSE parser forwards it without
inspecting its contents (the models module is outside this snapshot). -/
structure ResponseItem where
  raw : String
deriving DecidableEq, Repr

/-- client_common.rs ResponseEvent. -/
inductive ResponseEvent where
  | created : ResponseEvent
  | outputItemDone : ResponseItem → ResponseEvent
  | completed : String → Option TokenUsage → ResponseEvent
  | outputTextDelta : String → ResponseEvent
  | reasoningSummaryDelta : String → ResponseEvent
deriving DecidableEq, Repr

/-- The CodexErr variants the model client emits (error.rs is outside this
snapshot; variants and payloads as used in client.rs). -/
inductive CodexErr where
  | stream : String → CodexErr
  | unexpectedStatus : Nat → String → CodexErr
  | retryLimit : Nat → CodexErr
  | reqwest : CodexErr
deriving DecidableEq, Repr

/-- The two observations client.rs makes of an SSE event's response JSON
value: the error.message string extracted for response.failed, and the
result of parsing it as a ResponseCompleted. -/
structure RespPayload where
  errorMessage : Option String
  asCompleted : Option ResponseCompleted
deriving DecidableEq, Repr

/-- The observation client.rs makes of an SSE event's item JSON value: the
result of parsing it as a ResponseItem (failure means skip). -/
structure ItemPayload where
  asItem : Option ResponseItem
deriving DecidableEq, Repr

/-- client.rs SseEvent, one deserialized SSE frame. -/
structure SseEvent where
  kind : String
  response : Option RespPayload
  item : Option ItemPayload
  delta : Option String
deriving DecidableEq, Repr

/-- One output slot of process_sse: an Ok ResponseEvent or an Err. -/
abbrev OutEvent := Except CodexErr ResponseEvent

/-- client.rs process_sse, on a stream already consumed to its natural end
with no transport error and no idle timeout: the input is the list of SSE
frames, each either a deserialized SseEvent or a frame whose JSON failed
to parse (skipped).  The state is the captured response.completed
envelope; end of input runs the Ok(None) arm of the source. -/
def process_sse_go : List (Option SseEvent) → Option ResponseCompleted →
    List OutEvent
  | [], response_completed =>
      match response_completed with
      | Option.some r =>
          [Except.ok (ResponseEvent.completed r.id
            (r.usage.map ResponseCompletedUsage.toTokenUsage))]
      | Option.none =>
          [Except.error (CodexErr.stream
            "stream closed before response.completed")]
  | Option.none :: rest, response_completed =>
      process_sse_go rest response_completed
  | Option.some event :: rest, response_completed =>
      if event.kind = "response.output_item.done" then
        match event.item with
        | Option.none => process_sse_go rest response_completed
        | Option.some item_val =>
            match item_val.asItem with
            | Option.none => process_sse_go rest response_completed
            | Option.some item =>
                Except.ok (ResponseEvent.outputItemDone item) ::
                  process_sse_go rest response_completed
      else if event.kind = "response.output_text.delta" then
        match event.delta with
        | Option.some delta =>
            Except.ok (ResponseEvent.outputTextDelta delta) ::
              process_sse_go rest response_completed
        | Option.none => process_sse_go rest response_completed
      else if event.kind = "response.reasoning_summary_text.delta" then
        match event.delta with
        | Option.some delta =>
            Except.ok (ResponseEvent.reasoningSummaryDelta delta) ::
              process_sse_go rest response_completed
        | Option.none => process_sse_go rest response_completed
      else if event.kind = "response.created" then
        if event.response.isSome then
          Except.ok ResponseEvent.created :: process_sse_go rest response_completed
        else process_sse_go rest response_completed
      else if event.kind = "response.failed" then
        match event.response with
        | Option.some resp_val =>
            Except.error (CodexErr.stream
                (resp_val.errorMessage.getD "response.failed event received")) ::
              process_sse_go rest response_completed
        | Option.none => process_sse_go rest response_completed
      else if event.kind = "response.completed" then
        match event.response with
        | Option.some resp_val =>
            match resp_val.asCompleted with
            | Option.some r => process_sse_go rest (Option.some r)
            | Option.none => process_sse_go rest response_completed
        | Option.none => process_sse_go rest response_completed
      else process_sse_go rest response_completed

/-- process_sse on a whole stream (initial state: nothing captured). -/
def process_sse (frames : List (Option SseEvent)) : List OutEvent :=
  process_sse_go frames Option.none

/-- The events a single frame emits before the end of the stream. -/
def frame_events : Option SseEvent → List OutEvent
  | Option.none => []
  | Option.some event =>
      if event.kind = "response.output_item.done" then
        match event.item with
        | Option.none => []
        | Option.some item_val =>
            match item_val.asItem with
            | Option.none => []
            | Option.some item => [Except.ok (ResponseEvent.outputItemDone item)]
      else if event.kind = "response.output_text.delta" then
        match event.delta with
        | Option.some delta => [Except.ok (ResponseEvent.outputTextDelta delta)]
        | Option.none => []
      else if event.kind = "response.reasoning_summary_text.delta" then
        match event.delta with
        | Option.some delta =>
            [Except.ok (ResponseEvent.reasoningSummaryDelta delta)]
        | Option.none => []
      else if event.kind = "response.created" then
        if event.response.isSome then [Except.ok ResponseEvent.created] else []
      else if event.kind = "response.failed" then
        match event.response with
        | Option.some resp_val =>
            [Except.error (CodexErr.stream
              (resp_val.errorMessage.getD "response.failed event received"))]
        | Option.none => []
      else []

/-- How a single frame updates the captured response.completed state. -/
def step_rc (rc : Option ResponseCompleted) :
    Option SseEvent → Option ResponseCompleted
  | Option.none => rc
  | Option.some event =>
      if event.kind = "response.completed" then
        match event.response with
        | Option.some resp_val =>
            match resp_val.asCompleted with
            | Option.some r => Option.some r
            | Option.none => rc
        | Option.none => rc
      else rc

/-- The terminal events emitted at end of input. -/
def end_events : Option ResponseCompleted → List OutEvent
  | Option.some r =>
      [Except.ok (ResponseEvent.completed r.id
        (r.usage.map ResponseCompletedUsage.toTokenUsage))]
  | Option.none =>
      [Except.error (CodexErr.stream "stream closed before response.completed")]

/-- Whether an output slot is a Completed event. -/
def is_completed_event : OutEvent → Bool
  | Except.ok (ResponseEvent.completed _ _) => true
  | _ => false

/-! ### Responses-API request retry loop (ModelClient::stream_responses) -/

/-- One observed outcome of sending the HTTP request: a transport error or
a response with its status, optional Retry-After header (seconds) and
body text. -/
inductive Outcome where
  | transportErr : Outcome
  | http : Nat → Option Nat → String → Outcome
deriving DecidableEq, Repr

/-- The loop's exit: a successful stream, or an error. -/
inductive StreamResult where
  | ok : StreamResult
  | err : CodexErr → StreamResult
  | outOfOutcomes : StreamResult
deriving DecidableEq, Repr

/-- reqwest StatusCode::is_success. -/
def is_success (status : Nat) : Bool :=
  200 ≤ status && status ≤ 299

/-- reqwest StatusCode::is_server_error. -/
def is_server_error (status : Nat) : Bool :=
  500 ≤ status && status ≤ 599

/-- The retry loop of ModelClient::stream_responses.  backoff is the
exponential-backoff schedule from core/src/util.rs (outside this
snapshot, so kept abstract), in milliseconds, indexed by attempt number;
max_retries is provider-configured.  The outcome list supplies the result
of each send; the returned list records every sleep performed, in
milliseconds.  outOfOutcomes is a modelling artifact for an exhausted
outcome list. -/
def stream_responses_go (backoff : Nat → Nat) (max_retries : Nat) :
    Nat → List Outcome → StreamResult × List Nat
  | _, [] => (StreamResult.outOfOutcomes, [])
  | attempt0, outcome :: rest =>
      let attempt := attempt0 + 1
      match outcome with
      | Outcome.http status retry_after body =>
          if is_success status then (StreamResult.ok, [])
          else if !(status == 429 || is_server_error status) then
            (StreamResult.err (CodexErr.unexpectedStatus status body), [])
          else if attempt > max_retries then
            (StreamResult.err (CodexErr.retryLimit status), [])
          else
            let delay :=
              match retry_after with
              | Option.some secs => secs * 1000
              | Option.none => backoff attempt
            let r := stream_responses_go backoff max_retries attempt rest
            (r.1, delay :: r.2)
      | Outcome.transportErr =>
          if attempt > max_retries then (StreamResult.err CodexErr.reqwest, [])
          else
            let delay := backoff attempt
            let r := stream_responses_go backoff max_retries attempt rest
            (r.1, delay :: r.2)

/-- The full retry loop, starting at attempt 0 (incremented at loop top). -/
def stream_responses (backoff : Nat → Nat) (max_retries : Nat)
    (outcomes : List Outcome) : StreamResult × List Nat :=
  stream_responses_go backoff max_retries 0 outcomes

/-- A concrete well-formed response.completed frame with id r1 and no
usage, for evaluating the parser. -/
def completedFrameR1 : Option SseEvent :=
  Option.some
    { kind := "response.completed"
      response := Option.some
        { errorMessage := Option.none
          asCompleted := Option.some { id := "r1", usage := Option.none } }
      item := Option.none
      delta := Option.none }

/-- A concrete response.failed frame whose error message is boom, for
evaluating the parser. -/
def failedFrameBoom : Option SseEvent :=
  Option.some
    { kind := "response.failed"
      response := Option.some
        { errorMessage := Option.some "boom", asCompleted := Option.none }
      item := Option.none
      delta := Option.none }

end Client

/-! ## Auth manager (core/src/auth.rs): login-restriction enforcement -/

namespace Auth

/-- codex_app_server_protocol::AuthMode as used by auth.rs. -/
inductive AuthMode where
  | apiKey : AuthMode
  | chatGPT : AuthMode
deriving DecidableEq, Repr

/-- codex_protocol config_types::ForcedLoginMethod as used by auth.rs. -/
inductive ForcedLoginMethod where
  | api : ForcedLoginMethod
  | chatgpt : ForcedLoginMethod
deriving DecidableEq, Repr

/-- token_data::IdTokenInfo, modelled from the spec (the token_data module
is outside this snapshot): the parsed id-token carries the workspace id in
chatgpt_account_id. -/
structure IdTokenInfo where
  chatgpt_account_id : Option String
deriving DecidableEq, Repr

/-- token_data::TokenData as used by auth.rs. -/
structure TokenData where
  id_token : IdTokenInfo
  access_token : String
  refresh_token : String
  account_id : Option String
deriving DecidableEq, Repr

/-- storage::AuthDotJson: the persisted credential file.  last_refresh is
a timestamp, here counted in days. -/
structure AuthDotJson where
  openai_api_key : Option String
  tokens : Option TokenData
  last_refresh : Option Int
deriving DecidableEq, Repr

/-- The pure content of a loaded CodexAuth: mode, optional API key and the
cached auth.json snapshot. -/
structure LoadedAuth where
  mode : AuthMode
  api_key : Option String
  auth_dot_json : Option AuthDotJson
deriving DecidableEq, Repr

/-- CodexAuth::from_api_key. -/
def from_api_key (key : String) : LoadedAuth :=
  { mode := AuthMode.apiKey, api_key := Option.some key,
    auth_dot_json := Option.none }

/-- auth.rs load_auth with enable_codex_api_key_env = true, as called from
enforce_login_restrictions.  The CODEX_API_KEY environment variable and
the stored auth.json are passed in explicitly; a stored API key takes
precedence over stored tokens. -/
def load_auth (env_codex_api_key : Option String)
    (stored : Option AuthDotJson) : Option LoadedAuth :=
  match env_codex_api_key with
  | Option.some api_key => Option.some (from_api_key api_key)
  | Option.none =>
      match stored with
      | Option.none => Option.none
      | Option.some auth_dot_json =>
          match auth_dot_json.openai_api_key with
          | Option.some api_key => Option.some (from_api_key api_key)
          | Option.none =>
              Option.some
                { mode := AuthMode.chatGPT, api_key := Option.none,
                  auth_dot_json := Option.some
                    { openai_api_key := Option.none,
                      tokens := auth_dot_json.tokens,
                      last_refresh := auth_dot_json.last_refresh } }

/-- CodexAuth::get_token_data.  The network refresh taken when the tokens
are older than 28 days is abstracted as the refresh oracle (an error
string on failure); the fresh path returns the cached tokens. -/
def get_token_data (refresh : TokenData → Except String TokenData)
    (now : Int) (auth : LoadedAuth) : Except String TokenData :=
  match auth.auth_dot_json with
  | Option.some auth_dot_json =>
      match auth_dot_json.tokens, auth_dot_json.last_refresh with
      | Option.some tokens, Option.some last_refresh =>
          if last_refresh < now - 28 then refresh tokens
          else Except.ok tokens
      | _, _ => Except.error "Token data is not available."
  | Option.none => Except.error "Token data is not available."

/-- The forced-login-method violation messages of
enforce_login_restrictions. -/
def method_violation (required : ForcedLoginMethod) (mode : AuthMode) :
    Option String :=
  match required, mode with
  | ForcedLoginMethod.api, AuthMode.apiKey => Option.none
  | ForcedLoginMethod.chatgpt, AuthMode.chatGPT => Option.none
  | ForcedLoginMethod.api, AuthMode.chatGPT =>
      Option.some
        "API key login is required, but ChatGPT is currently being used. Logging out."
  | ForcedLoginMethod.chatgpt, AuthMode.apiKey =>
      Option.some
        "ChatGPT login is required, but an API key is currently being used. Logging out."

/-- The subset of Config that enforce_login_restrictions reads. -/
structure EnforceConfig where
  forced_login_method : Option ForcedLoginMethod
  forced_chatgpt_workspace_id : Option String
deriving DecidableEq, Repr

/-- auth.rs enforce_login_restrictions, with storage deletion made
explicit: the result pairs the Ok/Err outcome with the stored credentials
after the call (logout_with_message deletes them; deletion is modelled as
always succeeding, as in the test environment). -/
def enforce_login_restrictions (config : EnforceConfig)
    (env_codex_api_key : Option String) (stored : Option AuthDotJson)
    (refresh : TokenData → Except String TokenData) (now : Int) :
    Except String Unit × Option AuthDotJson :=
  match load_auth env_codex_api_key stored with
  | Option.none => (Except.ok (), stored)
  | Option.some auth =>
      let workspace_check :
          Except String Unit × Option AuthDotJson :=
        match config.forced_chatgpt_workspace_id with
        | Option.none => (Except.ok (), stored)
        | Option.some expected_account_id =>
            if auth.mode ≠ AuthMode.chatGPT then (Except.ok (), stored)
            else
              match get_token_data refresh now auth with
              | Except.error err =>
                  (Except.error
                    ("Failed to load ChatGPT credentials while enforcing workspace restrictions: "
                      ++ err ++ ". Logging out."), Option.none)
              | Except.ok token_data =>
                  match token_data.id_token.chatgpt_account_id with
                  | Option.some actual =>
                      if actual = expected_account_id then (Except.ok (), stored)
                      else
                        (Except.error
                          ("Login is restricted to workspace " ++ expected_account_id
                            ++ ", but current credentials belong to " ++ actual
                            ++ ". Logging out."), Option.none)
                  | Option.none =>
                      (Except.error
                        ("Login is restricted to workspace " ++ expected_account_id
                          ++ ", but current credentials lack a workspace identifier. Logging out."),
                        Option.none)
      match config.forced_login_method with
      | Option.some required_method =>
          match method_violation required_method auth.mode with
          | Option.some message => (Except.error message, Option.none)
          | Option.none => workspace_check
      | Option.none => workspace_check

/-- A concrete ChatGPT token set whose workspace id is org_other. -/
def tokensOrgOther : TokenData :=
  { id_token := { chatgpt_account_id := Option.some "org_other" }
    access_token := "at"
    refresh_token := "rt"
    account_id := Option.none }

/-- A concrete stored auth.json holding only the org_other token set. -/
def storedOrgOther : Option AuthDotJson :=
  Option.some
    { openai_api_key := Option.none
      tokens := Option.some tokensOrgOther
      last_refresh := Option.some 0 }

/-- The CodexAuth value load_auth produces from storedOrgOther. -/
def authOrgOther : LoadedAuth :=
  { mode := AuthMode.chatGPT
    api_key := Option.none
    auth_dot_json := Option.some
      { openai_api_key := Option.none
        tokens := Option.some tokensOrgOther
        last_refresh := Option.some 0 } }

/-- A config that forces API-key login and workspace org_mine. -/
def forcedApiOrgMine : EnforceConfig :=
  { forced_login_method := Option.some ForcedLoginMethod.api
    forced_chatgpt_workspace_id := Option.some "org_mine" }

/-- A config that forces only workspace org_mine. -/
def onlyWorkspaceOrgMine : EnforceConfig :=
  { forced_login_method := Option.none
    forced_chatgpt_workspace_id := Option.some "org_mine" }

end Auth

/-! ## Substring containment for error-message claims -/

/-- Whether pat occurs at the head of s (character lists). -/
def startsWithSeq : List Char → List Char → Bool
  | [], _ => true
  | _ :: _, [] => false
  | p :: restp, c :: restc => decide (p = c) && startsWithSeq restp restc

/-- Whether pat occurs anywhere inside s (character lists). -/
def containsSeq (pat : List Char) : List Char → Bool
  | [] => startsWithSeq pat []
  | c :: rest => startsWithSeq pat (c :: rest) || containsSeq pat rest

/-- Whether the string pat occurs inside the string s. -/
def strContainsSub (s pat : String) : Bool :=
  containsSeq pat.data s.data

/-! ## Theorems: safety evaluator -/

/-- C1: for every command, approval policy, sandbox policy and approved
set (and every built-in safe-list predicate and platform), a command that
is known-safe or previously approved is auto-approved with sandbox type
None. -/
theorem assess_command_safety_known_safe_or_approved
    (is_known_safe_command : List String → Bool) (command : List String)
    (approval_policy : AskForApproval) (sandbox_policy : SandboxPolicy)
    (approved : List (List String)) (platform : Platform)
    (h : is_known_safe_command command = true ∨
      approved.contains command = true) :
    assess_command_safety is_known_safe_command command approval_policy
        sandbox_policy approved platform =
      SafetyCheck.autoApprove SandboxType.none := by
  unfold assess_command_safety
  have hb : (is_known_safe_command command || approved.contains command) = true := by
    rcases h with h | h
    · simp [h]
    · have h' : command ∈ approved := by simpa using h
      simp [h']
  simp only [hb]
  simp

/-- C1 witness: the approved-set case at a concrete input. -/
theorem assess_command_safety_known_safe_or_approved_witness :
    ((fun c => decide (c = ["ls"])) ["rm"] = true ∨
      ([["rm"]].contains ["rm"]) = true) ∧
    assess_command_safety (fun c => decide (c = ["ls"])) ["rm"]
        AskForApproval.never SandboxPolicy.readOnly [["rm"]] Platform.linux =
      SafetyCheck.autoApprove SandboxType.none :=
  ⟨Or.inr (by decide),
   assess_command_safety_known_safe_or_approved _ _ _ _ _ _
     (Or.inr (by decide))⟩

/-- C7: for every approval policy, writable-roots list and cwd (and every
platform), an empty patch action is rejected with reason "empty patch". -/
theorem assess_patch_safety_empty_patch (platform : Platform)
    (action : ApplyPatchAction) (policy : AskForApproval)
    (writable_roots : List RustPath) (cwd : RustPath)
    (h : action.is_empty = true) :
    assess_patch_safety platform action policy writable_roots cwd =
      SafetyCheck.reject "empty patch" := by
  unfold assess_patch_safety
  simp [h]

/-- C7 witness: the empty patch at a concrete input. -/
theorem assess_patch_safety_empty_patch_witness :
    (ApplyPatchAction.mk []).is_empty = true ∧
    assess_patch_safety Platform.linux (ApplyPatchAction.mk [])
        AskForApproval.never [[Component.rootDir]] [Component.rootDir] =
      SafetyCheck.reject "empty patch" :=
  ⟨by decide,
   assess_patch_safety_empty_patch _ _ _ _ _ (by decide)⟩

/-- C8: for every non-empty patch action, writable-roots list and cwd (and
every platform), policy UnlessTrusted asks the user. -/
theorem assess_patch_safety_unless_trusted (platform : Platform)
    (action : ApplyPatchAction) (writable_roots : List RustPath)
    (cwd : RustPath) (h : action.is_empty = false) :
    assess_patch_safety platform action AskForApproval.unlessTrusted
        writable_roots cwd = SafetyCheck.askUser := by
  unfold assess_patch_safety
  simp [h]

/-- C8 witness: a one-entry patch under UnlessTrusted. -/
theorem assess_patch_safety_unless_trusted_witness :
    (ApplyPatchAction.mk
        [([Component.rootDir, Component.normal "a"],
          ApplyPatchFileChange.delete)]).is_empty = false ∧
    assess_patch_safety Platform.macos
        (ApplyPatchAction.mk
          [([Component.rootDir, Component.normal "a"],
            ApplyPatchFileChange.delete)])
        AskForApproval.unlessTrusted [[Component.rootDir]] [Component.rootDir] =
      SafetyCheck.askUser :=
  ⟨by decide,
   assess_patch_safety_unless_trusted _ _ _ _ (by decide)⟩

/-- With no declared writable roots the constrained-paths check fails
early, for every action and cwd. -/
theorem is_write_patch_constrained_no_roots (action : ApplyPatchAction)
    (cwd : RustPath) :
    is_write_patch_constrained_to_writable_paths action [] cwd = false := by
  unfold is_write_patch_constrained_to_writable_paths
  simp

/-- C10: for every non-empty patch action, approval policy and cwd (and
every platform), an empty writable-roots list never yields an AutoApprove
with sandbox type None, even when every touched path lies under cwd. -/
theorem assess_patch_safety_no_roots_never_unsandboxed (platform : Platform)
    (action : ApplyPatchAction) (policy : AskForApproval) (cwd : RustPath)
    (h : action.is_empty = false) :
    assess_patch_safety platform action policy [] cwd ≠
      SafetyCheck.autoApprove SandboxType.none := by
  unfold assess_patch_safety
  simp only [h]
  cases policy <;>
    simp [is_write_patch_constrained_no_roots] <;>
    cases platform <;>
      simp [get_platform_sandbox]

/-- C10 witness: a patch adding a file directly under cwd, with no
writable roots. -/
theorem assess_patch_safety_no_roots_never_unsandboxed_witness :
    (ApplyPatchAction.mk
        [([Component.rootDir, Component.normal "w", Component.normal "f"],
          ApplyPatchFileChange.add "x")]).is_empty = false ∧
    assess_patch_safety Platform.linux
        (ApplyPatchAction.mk
          [([Component.rootDir, Component.normal "w", Component.normal "f"],
            ApplyPatchFileChange.add "x")])
        AskForApproval.onFailure [] [Component.rootDir, Component.normal "w"] ≠
      SafetyCheck.autoApprove SandboxType.none :=
  ⟨by decide,
   assess_patch_safety_no_roots_never_unsandboxed _ _ _ _ (by decide)⟩

/-! ## Theorems: sandbox policy -/

namespace Proto

/-- If DiskWriteCwd is among the permissions, cwd appears in the roots
accumulated by the permission loop. -/
theorem writableRootsGo_mem_cwd (env : SysEnv) (cwd : RustPath) :
    ∀ perms : List SandboxPermission,
      SandboxPermission.diskWriteCwd ∈ perms →
      cwd ∈ writableRootsGo env cwd perms := by
  intro perms
  induction perms with
  | nil => intro h; cases h
  | cons perm rest ih =>
      intro h
      rcases List.mem_cons.mp h with h | h
      · subst h
        simp [writableRootsGo, permRoots]
      · simp only [writableRootsGo, List.mem_append]
        exact Or.inr (ih h)

/-- Off macOS, one permission's contribution is independent of TMPDIR. -/
theorem permRoots_tmpdir_indep (env : SysEnv) (cwd : RustPath)
    (t : Option RustPath) (h : env.is_macos = false) :
    ∀ perm, permRoots { env with tmpdir := t } cwd perm = permRoots env cwd perm := by
  intro perm
  cases perm <;> simp [permRoots, h]

/-- Off macOS, the accumulated roots are independent of TMPDIR. -/
theorem writableRootsGo_tmpdir_indep (env : SysEnv) (cwd : RustPath)
    (t : Option RustPath) (h : env.is_macos = false) :
    ∀ perms : List SandboxPermission,
      writableRootsGo { env with tmpdir := t } cwd perms =
        writableRootsGo env cwd perms := by
  intro perms
  induction perms with
  | nil => rfl
  | cons perm rest ih =>
      simp only [writableRootsGo, ih, permRoots_tmpdir_indep env cwd t h]

/-- C3 counterexample: SandboxPolicy in this protocol.rs revision is a
permission set with no WorkspaceWrite variant; the closest counterpart of
a WorkspaceWrite policy with configured writable roots, the policy built
by new_read_only_policy_with_writable_roots, returns only the configured
roots from get_writable_roots_with_cwd: the cwd is absent. -/
theorem get_writable_roots_with_cwd_misses_cwd_cex :
    (SandboxPolicy.new_read_only_policy_with_writable_roots
        [[Component.rootDir, Component.normal "a"]]).get_writable_roots_with_cwd
      { is_macos := false, is_unix := true, tmpdir := Option.none,
        canonicalize := fun p => Option.some p }
      [Component.rootDir, Component.normal "w"] =
      [[Component.rootDir, Component.normal "a"]] ∧
    ¬ ([Component.rootDir, Component.normal "w"] ∈
      (SandboxPolicy.new_read_only_policy_with_writable_roots
          [[Component.rootDir, Component.normal "a"]]).get_writable_roots_with_cwd
        { is_macos := false, is_unix := true, tmpdir := Option.none,
          canonicalize := fun p => Option.some p }
        [Component.rootDir, Component.normal "w"]) := by
  constructor
  · rfl
  · intro h
    simp [SandboxPolicy.get_writable_roots_with_cwd,
      SandboxPolicy.new_read_only_policy_with_writable_roots,
      SandboxPolicy.new_read_only_policy, writableRootsGo, permRoots] at h

/-- C3 (amended): for every policy, environment and cwd, the list returned
by get_writable_roots_with_cwd contains cwd whenever the permissions
include DiskWriteCwd (as the full-auto policy's do), and on any platform
other than macOS the returned list is independent of TMPDIR, so it never
contains a TMPDIR-derived path. -/
theorem get_writable_roots_with_cwd_cwd_and_tmpdir (env : SysEnv)
    (p : SandboxPolicy) (cwd : RustPath) :
    (SandboxPermission.diskWriteCwd ∈ p.permissions →
      cwd ∈ p.get_writable_roots_with_cwd env cwd) ∧
    (env.is_macos = false →
      ∀ t : Option RustPath,
        p.get_writable_roots_with_cwd { env with tmpdir := t } cwd =
          p.get_writable_roots_with_cwd env cwd) := by
  constructor
  · intro h
    exact writableRootsGo_mem_cwd env cwd p.permissions h
  · intro h t
    exact writableRootsGo_tmpdir_indep env cwd t h p.permissions

/-- C3 witness: the full-auto policy at a concrete non-macOS environment
and cwd. -/
theorem get_writable_roots_with_cwd_cwd_and_tmpdir_witness :
    (SandboxPermission.diskWriteCwd ∈
      SandboxPolicy.new_full_auto_policy.permissions) ∧
    ({ is_macos := false, is_unix := true, tmpdir := Option.none,
        canonicalize := fun p => Option.some p : SysEnv }.is_macos = false) ∧
    ([Component.rootDir, Component.normal "w"] ∈
      SandboxPolicy.new_full_auto_policy.get_writable_roots_with_cwd
        { is_macos := false, is_unix := true, tmpdir := Option.none,
          canonicalize := fun p => Option.some p }
        [Component.rootDir, Component.normal "w"]) ∧
    (SandboxPolicy.new_full_auto_policy.get_writable_roots_with_cwd
        { is_macos := false, is_unix := true,
          tmpdir := Option.some [Component.rootDir, Component.normal "tmp"],
          canonicalize := fun p => Option.some p }
        [Component.rootDir, Component.normal "w"] =
      SandboxPolicy.new_full_auto_policy.get_writable_roots_with_cwd
        { is_macos := false, is_unix := true, tmpdir := Option.none,
          canonicalize := fun p => Option.some p }
        [Component.rootDir, Component.normal "w"]) := by
  refine ⟨by decide, rfl, ?_, ?_⟩
  · exact (get_writable_roots_with_cwd_cwd_and_tmpdir _ _ _).1 (by decide)
  · exact (get_writable_roots_with_cwd_cwd_and_tmpdir
      { is_macos := false, is_unix := true, tmpdir := Option.none,
        canonicalize := fun p => Option.some p }
      SandboxPolicy.new_full_auto_policy
      [Component.rootDir, Component.normal "w"]).2 rfl
      (Option.some [Component.rootDir, Component.normal "tmp"])

/-- C4 counterexample: a sandbox policy with an empty permission list (a
legal SandboxPolicy value in this revision) reports no full disk read
access, so has_full_disk_read_access is not true for every value. -/
theorem has_full_disk_read_access_false_on_empty_cex :
    (SandboxPolicy.mk []).has_full_disk_read_access = false := rfl

/-- C4 (amended): has_full_disk_read_access returns true exactly for the
policies whose permissions include DiskFullReadAccess; in particular it is
true for the built-in read-only and full-auto constructors, but not for
every policy value. -/
theorem has_full_disk_read_access_iff_permission (p : SandboxPolicy) :
    (p.has_full_disk_read_access = true ↔
      SandboxPermission.diskFullReadAccess ∈ p.permissions) ∧
    SandboxPolicy.new_read_only_policy.has_full_disk_read_access = true ∧
    SandboxPolicy.new_full_auto_policy.has_full_disk_read_access = true := by
  refine ⟨?_, rfl, rfl⟩
  unfold SandboxPolicy.has_full_disk_read_access
  rw [List.any_eq_true]
  constructor
  · rintro ⟨perm, hm, hp⟩
    cases perm <;> simp_all
  · intro hm
    exact ⟨_, hm, rfl⟩

end Proto

/-! ## Theorems: SSE parser -/

namespace Client

/-- One step of process_sse: the frame's events, then the rest of the
stream with the updated captured-completion state. -/
theorem process_sse_go_cons (f : Option SseEvent)
    (rest : List (Option SseEvent)) (rc : Option ResponseCompleted) :
    process_sse_go (f :: rest) rc =
      frame_events f ++ process_sse_go rest (step_rc rc f) := by
  cases f with
  | none => simp [process_sse_go, frame_events, step_rc]
  | some event =>
      by_cases h1 : event.kind = "response.output_item.done"
      · cases hi : event.item with
        | none => simp [process_sse_go, frame_events, step_rc, h1, hi]
        | some item_val =>
            cases ha : item_val.asItem <;>
              simp [process_sse_go, frame_events, step_rc, h1, hi, ha]
      · by_cases h2 : event.kind = "response.output_text.delta"
        · cases hd : event.delta <;>
            simp [process_sse_go, frame_events, step_rc, h1, h2, hd]
        · by_cases h3 : event.kind = "response.reasoning_summary_text.delta"
          · cases hd : event.delta <;>
              simp [process_sse_go, frame_events, step_rc, h1, h2, h3, hd]
          · by_cases h4 : event.kind = "response.created"
            · cases hr : event.response <;>
                simp [process_sse_go, frame_events, step_rc, h1, h2, h3, h4, hr]
            · by_cases h5 : event.kind = "response.failed"
              · cases hr : event.response <;>
                  simp [process_sse_go, frame_events, step_rc,
                    h1, h2, h3, h4, h5, hr]
              · by_cases h6 : event.kind = "response.completed"
                · cases hr : event.response with
                  | none =>
                      simp [process_sse_go, frame_events, step_rc,
                        h1, h2, h3, h4, h5, h6, hr]
                  | some resp_val =>
                      cases hc : resp_val.asCompleted <;>
                        simp [process_sse_go, frame_events, step_rc,
                          h1, h2, h3, h4, h5, h6, hr, hc]
                · simp [process_sse_go, frame_events, step_rc,
                    h1, h2, h3, h4, h5, h6]

/-- process_sse decomposes into per-frame events followed by the terminal
event for the final captured state. -/
theorem process_sse_go_decomp :
    ∀ (frames : List (Option SseEvent)) (rc : Option ResponseCompleted),
      process_sse_go frames rc =
        (frames.map frame_events).flatten ++
          end_events (frames.foldl step_rc rc) := by
  intro frames
  induction frames with
  | nil => intro rc; cases rc <;> simp [process_sse_go, end_events]
  | cons f rest ih =>
      intro rc
      rw [process_sse_go_cons, ih]
      simp [List.append_assoc]

/-- No per-frame event is a Completed event. -/
theorem frame_events_not_completed (f : Option SseEvent) :
    ∀ e ∈ frame_events f, is_completed_event e = false := by
  intro e he
  cases f with
  | none => cases he
  | some event =>
      unfold frame_events at he
      repeat' split at he
      all_goals simp_all [is_completed_event]

/-- The pre-terminal part of the output has no Completed event. -/
theorem flatten_frame_events_countP (frames : List (Option SseEvent)) :
    ((frames.map frame_events).flatten).countP is_completed_event = 0 := by
  induction frames with
  | nil => rfl
  | cons f rest ih =>
      simp only [List.map_cons, List.flatten_cons, List.countP_append, ih]
      have h0 : (frame_events f).countP is_completed_event = 0 :=
        List.countP_eq_zero.mpr (by
          intro e he
          simpa using frame_events_not_completed f e he)
      simpa using h0

/-- C5: for every SSE stream consumed to its end, if a response.completed
envelope was captured, the output ends with exactly one Completed event
carrying that envelope's id and converted usage; otherwise it ends with
the error Stream("stream closed before response.completed") and no
Completed is ever emitted. -/
theorem process_sse_terminal_event (frames : List (Option SseEvent)) :
    (∀ r : ResponseCompleted,
      frames.foldl step_rc Option.none = Option.some r →
        (process_sse frames).getLast? =
          Option.some (Except.ok (ResponseEvent.completed r.id
            (r.usage.map ResponseCompletedUsage.toTokenUsage))) ∧
        (process_sse frames).countP is_completed_event = 1) ∧
    (frames.foldl step_rc Option.none = Option.none →
      (process_sse frames).getLast? =
        Option.some (Except.error (CodexErr.stream
          "stream closed before response.completed")) ∧
      (process_sse frames).countP is_completed_event = 0) := by
  have hdec : process_sse frames =
      (frames.map frame_events).flatten ++
        end_events (frames.foldl step_rc Option.none) :=
    process_sse_go_decomp frames Option.none
  constructor
  · intro r hr
    rw [hdec, hr]
    constructor
    · exact List.getLast?_concat _
    · rw [List.countP_append, flatten_frame_events_countP]
      simp [end_events, is_completed_event]
  · intro hr
    rw [hdec, hr]
    constructor
    · exact List.getLast?_concat _
    · rw [List.countP_append, flatten_frame_events_countP]
      simp [end_events, is_completed_event]

/-- C5 witness: a stream holding one well-formed response.completed
frame. -/
theorem process_sse_terminal_event_witness :
    [completedFrameR1].foldl step_rc Option.none =
      Option.some { id := "r1", usage := Option.none } ∧
    (process_sse [completedFrameR1]).getLast? =
      Option.some (Except.ok (ResponseEvent.completed "r1" Option.none)) ∧
    (process_sse [completedFrameR1]).countP is_completed_event = 1 :=
  ⟨rfl,
   (process_sse_terminal_event _).1 { id := "r1", usage := Option.none } rfl⟩

/-- C2: evaluating process_sse on a stream whose response.failed frame is
followed by a response.completed frame shows the parser emitting the
Stream error and then continuing: a Completed event follows the error, so
the output does not end at the error. -/
theorem process_sse_event_follows_failed_error :
    process_sse [failedFrameBoom, completedFrameR1] =
      [Except.error (CodexErr.stream "boom"),
       Except.ok (ResponseEvent.completed "r1" Option.none)] := rfl

/-! ## Theorems: request retry loop -/

/-- C6: in the Responses-API request loop, a 429 or 5xx response is
retried after sleeping the Retry-After header value in seconds when
present and the backoff schedule otherwise, for at most max_retries
retries, after which the request fails with RetryLimit(status); any other
4xx fails immediately with UnexpectedStatus carrying the body. -/
theorem stream_responses_retry_policy (backoff : Nat → Nat)
    (max_retries attempt status : Nat) (retry_after : Option Nat)
    (body : String) (rest : List Outcome) :
    (((status == 429 || is_server_error status) = true →
        attempt + 1 ≤ max_retries →
        stream_responses_go backoff max_retries attempt
            (Outcome.http status retry_after body :: rest) =
          ((stream_responses_go backoff max_retries (attempt + 1) rest).1,
           (match retry_after with
            | Option.some secs => secs * 1000
            | Option.none => backoff (attempt + 1)) ::
             (stream_responses_go backoff max_retries (attempt + 1) rest).2)) ∧
      ((status == 429 || is_server_error status) = true →
        attempt + 1 > max_retries →
        stream_responses_go backoff max_retries attempt
            (Outcome.http status retry_after body :: rest) =
          (StreamResult.err (CodexErr.retryLimit status), []))) ∧
    (400 ≤ status → status ≤ 499 → status ≠ 429 →
      stream_responses_go backoff max_retries attempt
          (Outcome.http status retry_after body :: rest) =
        (StreamResult.err (CodexErr.unexpectedStatus status body), [])) := by
  have hsucc : ∀ h : (status == 429 || is_server_error status) = true,
      is_success status = false := by
    intro h
    rcases Bool.or_eq_true_iff.mp h with h | h
    · have : status = 429 := by simpa using h
      subst this
      rfl
    · unfold is_server_error at h
      unfold is_success
      rcases Bool.and_eq_true_iff.mp h with ⟨h5, _⟩
      have h5' : 500 ≤ status := by exact_mod_cast of_decide_eq_true h5
      have : ¬ status ≤ 299 := by omega
      simp [this]
  refine ⟨⟨?_, ?_⟩, ?_⟩
  · intro hretry hle
    have hs := hsucc hretry
    have hgt : ¬ attempt + 1 > max_retries := by omega
    simp [stream_responses_go, hs, hretry, hgt]
  · intro hretry hgt
    have hs := hsucc hretry
    simp [stream_responses_go, hs, hretry, hgt]
  · intro h400 h499 h429
    have hs : is_success status = false := by
      unfold is_success
      have : ¬ status ≤ 299 := by omega
      simp [this]
    have hretry : (status == 429 || is_server_error status) = false := by
      have hb : (status == 429) = false := by
        simpa using h429
      have hse : is_server_error status = false := by
        unfold is_server_error
        have : ¬ 500 ≤ status := by omega
        simp [this]
      simp [hb, hse]
    simp [stream_responses_go, hs, hretry]

/-- C6 witness: with max_retries = 1, a 429 with Retry-After 2 sleeps
2000 ms and retries once, a second retryable 500 exhausts the budget and
fails with RetryLimit(500); separately, a plain 404 fails immediately
with UnexpectedStatus and its body. -/
theorem stream_responses_retry_policy_witness :
    stream_responses_go (fun a => 100 * a) 1 0
        [Outcome.http 429 (Option.some 2) "",
         Outcome.http 500 Option.none "b"] =
      (StreamResult.err (CodexErr.retryLimit 500), [2000]) ∧
    stream_responses_go (fun a => 100 * a) 1 0
        [Outcome.http 404 Option.none "nf"] =
      (StreamResult.err (CodexErr.unexpectedStatus 404 "nf"), []) := by
  constructor
  · have h1 := (stream_responses_retry_policy (fun a => 100 * a) 1 0 429
      (Option.some 2) "" [Outcome.http 500 Option.none "b"]).1.1
      (by decide) (by decide)
    have h2 := (stream_responses_retry_policy (fun a => 100 * a) 1 1 500
      Option.none "b" []).1.2 (by decide) (by decide)
    rw [h1, h2]
  · exact (stream_responses_retry_policy (fun a => 100 * a) 1 0 404
      Option.none "nf" []).2 (by decide) (by decide) (by decide)

end Client

/-! ## Theorems: substring containment -/

/-- A pattern occurs at the head of itself followed by anything. -/
theorem startsWithSeq_self_append :
    ∀ pat rest : List Char, startsWithSeq pat (pat ++ rest) = true := by
  intro pat
  induction pat with
  | nil => intro rest; rfl
  | cons c restp ih =>
      intro rest
      simp [startsWithSeq, ih]

/-- Occurring at the head implies occurring somewhere. -/
theorem containsSeq_of_startsWithSeq (pat s : List Char)
    (h : startsWithSeq pat s = true) : containsSeq pat s = true := by
  cases s with
  | nil => simpa [containsSeq] using h
  | cons c rest => simp [containsSeq, h]

/-- A pattern occurs inside any list that embeds it between two parts. -/
theorem containsSeq_of_append :
    ∀ a pat b : List Char, containsSeq pat (a ++ (pat ++ b)) = true := by
  intro a
  induction a with
  | nil =>
      intro pat b
      exact containsSeq_of_startsWithSeq pat (pat ++ b)
        (startsWithSeq_self_append pat b)
  | cons c rest ih =>
      intro pat b
      simp [containsSeq, ih pat b]

/-- Lifting containsSeq to strings through a data decomposition. -/
theorem strContainsSub_of_data (s pat : String) (a b : List Char)
    (h : s.data = a ++ (pat.data ++ b)) : strContainsSub s pat = true := by
  unfold strContainsSub
  rw [h]
  exact containsSeq_of_append a pat.data b

/-- The workspace-restriction messages all contain "workspace " followed
by the expected workspace id. -/
theorem strContainsSub_restricted_msg (expected : String)
    (tailChars : List Char) (s : String)
    (h : s.data =
      "Login is restricted to workspace ".data ++ (expected.data ++ tailChars)) :
    strContainsSub s ("workspace " ++ expected) = true := by
  apply strContainsSub_of_data s _ ("Login is restricted to ".data) tailChars
  rw [h, String.data_append]
  rw [show ("Login is restricted to workspace ".data : List Char) =
    "Login is restricted to ".data ++ "workspace ".data from by decide]
  simp [List.append_assoc]

/-! ## Theorems: login-restriction enforcement -/

namespace Auth

/-- C9 counterexample: with forced_login_method = Api also configured, the
method gate fires first: the stored credentials are deleted but the error
message is the method message, which does not contain "workspace org_mine"
even though the workspace restriction is set, the auth mode is ChatGPT and
the token's workspace id mismatches. -/
theorem enforce_login_restrictions_method_gate_cex :
    enforce_login_restrictions forcedApiOrgMine Option.none storedOrgOther
        Except.ok 0 =
      (Except.error
        "API key login is required, but ChatGPT is currently being used. Logging out.",
        Option.none) ∧
    load_auth Option.none storedOrgOther = Option.some authOrgOther ∧
    authOrgOther.mode = AuthMode.chatGPT ∧
    get_token_data Except.ok 0 authOrgOther = Except.ok tokensOrgOther ∧
    tokensOrgOther.id_token.chatgpt_account_id ≠ Option.some "org_mine" ∧
    strContainsSub
        "API key login is required, but ChatGPT is currently being used. Logging out."
        ("workspace " ++ "org_mine") = false :=
  ⟨rfl, rfl, rfl, rfl, by decide, by decide⟩

/-- C9 (amended): when forced_chatgpt_workspace_id is configured, the
auth mode is ChatGPT, and forced_login_method does not itself force a
logout (it is unset or Chatgpt), a token whose workspace id differs from
the configured one or is missing makes enforce_login_restrictions delete
the stored credentials and fail with a message containing "workspace "
followed by the expected workspace id. -/
theorem enforce_login_restrictions_workspace_mismatch
    (config : EnforceConfig) (env_codex_api_key : Option String)
    (stored : Option AuthDotJson)
    (refresh : TokenData → Except String TokenData) (now : Int)
    (expected : String) (auth : LoadedAuth) (td : TokenData)
    (hws : config.forced_chatgpt_workspace_id = Option.some expected)
    (hmethod : config.forced_login_method = Option.none ∨
      config.forced_login_method = Option.some ForcedLoginMethod.chatgpt)
    (hload : load_auth env_codex_api_key stored = Option.some auth)
    (hmode : auth.mode = AuthMode.chatGPT)
    (htd : get_token_data refresh now auth = Except.ok td)
    (hacct : td.id_token.chatgpt_account_id ≠ Option.some expected) :
    (enforce_login_restrictions config env_codex_api_key stored refresh
        now).2 = Option.none ∧
    ∃ msg,
      (enforce_login_restrictions config env_codex_api_key stored refresh
          now).1 = Except.error msg ∧
      strContainsSub msg ("workspace " ++ expected) = true := by
  cases hco : td.id_token.chatgpt_account_id with
  | some actual =>
      have hne : actual ≠ expected := by
        intro h
        exact hacct (by rw [hco, h])
      have hval : enforce_login_restrictions config env_codex_api_key stored
          refresh now =
          (Except.error
            ("Login is restricted to workspace " ++ expected
              ++ ", but current credentials belong to " ++ actual
              ++ ". Logging out."), Option.none) := by
        rcases hmethod with hm | hm <;>
          simp [enforce_login_restrictions, hload, hm, hws, hmode, htd, hco,
            method_violation, hne]
      refine ⟨by rw [hval], ?_⟩
      refine ⟨"Login is restricted to workspace " ++ expected
        ++ ", but current credentials belong to " ++ actual
        ++ ". Logging out.", by rw [hval], ?_⟩
      apply strContainsSub_restricted_msg expected
        (", but current credentials belong to ".data ++
          (actual.data ++ ". Logging out.".data))
      simp [String.data_append, List.append_assoc]
  | none =>
      have hval : enforce_login_restrictions config env_codex_api_key stored
          refresh now =
          (Except.error
            ("Login is restricted to workspace " ++ expected
              ++ ", but current credentials lack a workspace identifier. Logging out."),
            Option.none) := by
        rcases hmethod with hm | hm <;>
          simp [enforce_login_restrictions, hload, hm, hws, hmode, htd, hco,
            method_violation]
      refine ⟨by rw [hval], ?_⟩
      refine ⟨"Login is restricted to workspace " ++ expected
        ++ ", but current credentials lack a workspace identifier. Logging out.",
        by rw [hval], ?_⟩
      apply strContainsSub_restricted_msg expected
        (", but current credentials lack a workspace identifier. Logging out.".data)
      simp [String.data_append, List.append_assoc]

/-- C9 witness: workspace org_mine forced, no forced login method, stored
token belongs to org_other. -/
theorem enforce_login_restrictions_workspace_mismatch_witness :
    (onlyWorkspaceOrgMine.forced_chatgpt_workspace_id =
        Option.some "org_mine" ∧
      load_auth Option.none storedOrgOther = Option.some authOrgOther ∧
      authOrgOther.mode = AuthMode.chatGPT ∧
      get_token_data Except.ok 0 authOrgOther = Except.ok tokensOrgOther ∧
      tokensOrgOther.id_token.chatgpt_account_id ≠ Option.some "org_mine") ∧
    ((enforce_login_restrictions onlyWorkspaceOrgMine Option.none
        storedOrgOther Except.ok 0).2 = Option.none ∧
      ∃ msg,
        (enforce_login_restrictions onlyWorkspaceOrgMine Option.none
            storedOrgOther Except.ok 0).1 = Except.error msg ∧
        strContainsSub msg ("workspace " ++ "org_mine") = true) :=
  ⟨⟨rfl, rfl, rfl, rfl, by decide⟩,
   enforce_login_restrictions_workspace_mismatch onlyWorkspaceOrgMine
     Option.none storedOrgOther Except.ok 0 "org_mine" authOrgOther
     tokensOrgOther rfl (Or.inl rfl) rfl rfl rfl (by decide)⟩

end Auth

end Codex
